import Mathlib

/-!
Verification development for the `DateTensor` date-arithmetic unit
(`tf_quant_finance/experimental/dates/date_tensor.py`).

Modelling conventions:
* A tensor of `int32` values is modelled as a `List Int`; all tensor
  operations in the source are elementwise (with broadcasting), so list
  operations `map` / `zipWith` model them directly.
* A `PeriodTensor` quantity is modelled as a scalar `Int` broadcast against
  the date batch (the canonical usage shown in the source's docstrings).
* Fallible operations (factories with validation, conversion) return
  `Option` / `Except` instead of raising.
* The sibling module `date_utils` is not part of the provided source; its
  three pure functions are modelled from the spec (see the marked
  doc comments below). Everything else is translated from the source.
-/

namespace DateTensorSpec

/-- Generic three-list analogue of `List.zipWith`, used to model elementwise
tensor operations over three same-shaped tensors. -/
def zipWith3 {α β γ δ : Type} (f : α → β → γ → δ) : List α → List β → List γ → List δ
  | a :: as, b :: bs, c :: cs => f a b c :: zipWith3 f as bs cs
  | _, _, _ => []

/-- The source's `_DAYS_IN_MONTHS` table: a sentinel 0, then days per month
for non-leap years (indices 1-12) and for leap years (indices 13-24). -/
def DAYS_IN_MONTHS : List Int :=
  [0,
   31, 28, 31, 30, 31, 30, 31, 31, 30, 31, 30, 31,
   31, 29, 31, 30, 31, 30, 31, 31, 30, 31, 30, 31]

/-- The source's `_ORDINAL_OF_1_1_1970`: ordinal of 1 January 1970. -/
def ORDINAL_OF_1_1_1970 : Int := 719163

/-- Modelled from the spec: `date_utils.is_leap_year` (module `date_utils` is
not in the provided source). Standard proleptic-Gregorian rule: divisible by
4, and not by 100 unless also by 400. -/
def is_leap_year (year : Int) : Bool :=
  year % 4 == 0 && (year % 100 != 0 || year % 400 == 0)

/-- `tf.gather(days_in_months, month + 12 * cast(is_leap, int32))`: look up
the `_DAYS_IN_MONTHS` table at index `month + 12 * is_leap`.  (For the
indices arising in the source the index is always in range; out-of-range
indices, on which `tf.gather` fails, are given the sentinel value 0.) -/
def gather_days_in_months (is_leap : Bool) (month : Int) : Int :=
  DAYS_IN_MONTHS.getD (month + 12 * (if is_leap then 1 else 0)).toNat 0

/-- Month lengths (January..December) of a year with leap flag `leap`,
read off the `_DAYS_IN_MONTHS` table. -/
def month_lengths (leap : Bool) : List Int :=
  if leap then DAYS_IN_MONTHS.drop 13 else (DAYS_IN_MONTHS.take 13).drop 1

/-- Modelled from the spec: the day count of the full years before `year`
(proleptic Gregorian, day 1 = 1 Jan year 1), part of
`date_utils.year_month_day_to_ordinal`. -/
def days_before_year (year : Int) : Int :=
  let y := year - 1
  365 * y + y.fdiv 4 - y.fdiv 100 + y.fdiv 400

/-- Modelled from the spec: days in year `leap` before month `month`, part of
`date_utils.year_month_day_to_ordinal`. -/
def days_before_month (leap : Bool) (month : Int) : Int :=
  (((month_lengths leap)).take (month - 1).toNat).sum

/-- Modelled from the spec: `date_utils.year_month_day_to_ordinal`
(module `date_utils` is not in the provided source): elementwise conversion
of a valid (year, month, day) triple to its ordinal, with
1 Jan 0001 having ordinal 1. -/
def year_month_day_to_ordinal (year month day : Int) : Int :=
  days_before_year year + days_before_month (is_leap_year year) month + day

/-- Helper for `ordinal_to_year_month_day`: walk the month-length list to
locate the month containing the (0-based) day-of-year `n`. -/
def find_month (n : Int) (month : Int) : List Int → Int × Int
  | [] => (month, n + 1)
  | dim :: rest =>
    if n < dim then (month, n + 1) else find_month (n - dim) (month + 1) rest

/-- Modelled from the spec: `date_utils.ordinal_to_year_month_day`
(module `date_utils` is not in the provided source): the inverse conversion,
valid for all positive ordinals, using the 400/100/4/1-year cycle structure
of the proleptic Gregorian calendar. -/
def ordinal_to_year_month_day (ordinal : Int) : Int × Int × Int :=
  let n0 := ordinal - 1
  let n400 := n0.fdiv 146097
  let r400 := n0.fmod 146097
  let n100 := r400.fdiv 36524
  let r100 := r400.fmod 36524
  let n4 := r100.fdiv 1461
  let r4 := r100.fmod 1461
  let n1 := r4.fdiv 365
  let n := r4.fmod 365
  let year := n400 * 400 + n100 * 100 + n4 * 4 + n1 + 1
  if n1 == 4 || n100 == 4 then (year - 1, 12, 31)
  else
    let md := find_month n 1 (month_lengths (is_leap_year year))
    (year, md.1, md.2)

/-- The core data type: four parallel int32 arrays (ordinals, years, months,
days), all denoting the same dates. -/
structure DateTensor where
  ordinals : List Int
  years : List Int
  months : List Int
  days : List Int
deriving DecidableEq

/-- Accessor `ordinal()`: the ordinals array. -/
def DateTensor.ordinal (dt : DateTensor) : List Int := dt.ordinals

/-- Accessor `year()`. -/
def DateTensor.year (dt : DateTensor) : List Int := dt.years

/-- Accessor `month()`. -/
def DateTensor.month (dt : DateTensor) : List Int := dt.months

/-- Accessor `day()`. -/
def DateTensor.day (dt : DateTensor) : List Int := dt.days

/-- Accessor `day_of_week()`: `(ordinal - 1) % 7`, 0 = Monday. -/
def DateTensor.day_of_week (dt : DateTensor) : List Int :=
  dt.ordinals.map (fun o => (o - 1).emod 7)

/-- `constants.PeriodType`: the closed 4-member period-type enumeration. -/
inductive PeriodType
  | DAY
  | WEEK
  | MONTH
  | YEAR
deriving DecidableEq

/-- `periods.PeriodTensor`: a quantity (scalar, broadcast against the date
batch) and a period-type tag. Constructor argument order matches the
source: `PeriodTensor(quantity, period_type)`. -/
structure PeriodTensor where
  quantity : Int
  period_type : PeriodType
deriving DecidableEq

/-- `from_year_month_day(year, month, day, validate=True)`: elementwise
checks when `validate` is set — year positive, month in
[JANUARY, DECEMBER] = [1, 12], day positive, day at most the leap-aware
month length gathered from `_DAYS_IN_MONTHS`; any violated assertion fails
the whole operation.  On success the ordinal is computed by
`date_utils.year_month_day_to_ordinal` and all four arrays are returned. -/
def from_year_month_day (year month day : List Int) (validate : Bool := true) :
    Option DateTensor :=
  let checks : Bool :=
    year.all (fun y => 0 < y) &&
    month.all (fun m => 1 ≤ m) &&
    month.all (fun m => m ≤ 12) &&
    day.all (fun d => 0 < d) &&
    (zipWith3 (fun y m d => decide (d ≤ gather_days_in_months (is_leap_year y) m))
      year month day).all (fun b => b)
  if validate && !checks then none
  else some ⟨zipWith3 year_month_day_to_ordinal year month day, year, month, day⟩

/-- `from_ordinals(ordinals, validate=True)`: when `validate` is set, asserts
all ordinals strictly positive; computes years/months/days via
`date_utils.ordinal_to_year_month_day`. -/
def from_ordinals (ordinals : List Int) (validate : Bool := true) :
    Option DateTensor :=
  if validate && !(ordinals.all (fun o => 0 < o)) then none
  else
    let ymd := ordinals.map ordinal_to_year_month_day
    some ⟨ordinals, ymd.map (fun t => t.1), ymd.map (fun t => t.2.1),
          ymd.map (fun t => t.2.2)⟩

/-- The inner `adjust_day(year, month, day)` of `DateTensor.__add__`:
`min(day, days_in_months[month + 12 * is_leap_year(year)])`, elementwise. -/
def adjust_day (year month day : List Int) : List Int :=
  zipWith3 (fun y m d => min d (gather_days_in_months (is_leap_year y) m))
    year month day

/-- The DAY branch of `DateTensor.__add__`:
`from_ordinals(self._ordinals + quantity)` with the default validation.
The WEEK branch of the source is `self + PeriodTensor(quantity * 7, DAY)`,
a one-step re-entry of `__add__` that lands in this same branch; it is
modelled by calling this helper directly so that the definition stays
non-recursive and executable. -/
def DateTensor.add_days (dt : DateTensor) (q : Int) : Option DateTensor :=
  from_ordinals (dt.ordinals.map (fun o => o + q))

/-- `DateTensor.__add__(period_tensor)`, dispatching on the period type:
DAY adds to the ordinals and rebuilds via `from_ordinals` (default
validation); WEEK delegates to DAY with the quantity multiplied by 7;
MONTH computes `m = months - 1 + quantity`, `y = years + m // 12`,
`m2 = m % 12 + 1` (TF `//` and `%` on int32 are floor division and floor
modulo, i.e. `Int.fdiv` / `Int.fmod`), clamps the day with `adjust_day`, and
rebuilds via `from_year_month_day` with `validate=False`; YEAR adds the
quantity to the years, keeps the months (`tf.broadcast_to` is the identity
on same-shaped tensors), clamps the day the same way, and rebuilds the same
way.  (The source's final `raise ValueError` for an unrecognized period
type is unreachable here because `PeriodType` is a closed enumeration.) -/
def DateTensor.add (dt : DateTensor) : PeriodTensor → Option DateTensor
  | ⟨q, .DAY⟩ => dt.add_days q
  | ⟨q, .WEEK⟩ => dt.add_days (q * 7)
  | ⟨q, .MONTH⟩ =>
    let m := dt.months.map (fun mo => mo - 1 + q)
    let y := List.zipWith (fun yr mv => yr + mv.fdiv 12) dt.years m
    let m2 := m.map (fun mv => mv.fmod 12 + 1)
    let d := adjust_day y m2 dt.days
    from_year_month_day y m2 d false
  | ⟨q, .YEAR⟩ =>
    let y := dt.years.map (fun yr => yr + q)
    let m := dt.months
    let d := adjust_day y m dt.days
    from_year_month_day y m d false

/-- `DateTensor.__sub__(period_tensor)`:
`self + PeriodTensor(-quantity, period_type)`. -/
def DateTensor.sub (dt : DateTensor) (p : PeriodTensor) : Option DateTensor :=
  dt.add ⟨-p.quantity, p.period_type⟩

/-- `DateTensor.__eq__`: `tf.math.equal(self._ordinals, other.ordinal())`. -/
def DateTensor.eq (dt other : DateTensor) : List Bool :=
  List.zipWith (fun a b => a == b) dt.ordinals other.ordinal

/-- `DateTensor.__ne__`: `tf.math.not_equal(self._ordinals, other.ordinal())`. -/
def DateTensor.ne (dt other : DateTensor) : List Bool :=
  List.zipWith (fun a b => a != b) dt.ordinals other.ordinal

/-- `DateTensor.__gt__`: `self._ordinals > other.ordinal()`. -/
def DateTensor.gt (dt other : DateTensor) : List Bool :=
  List.zipWith (fun a b => decide (a > b)) dt.ordinals other.ordinal

/-- `DateTensor.__ge__`: `self._ordinals >= other.ordinal()`. -/
def DateTensor.ge (dt other : DateTensor) : List Bool :=
  List.zipWith (fun a b => decide (a ≥ b)) dt.ordinals other.ordinal

/-- `DateTensor.__lt__`: `self._ordinals < other.ordinal()`. -/
def DateTensor.lt (dt other : DateTensor) : List Bool :=
  List.zipWith (fun a b => decide (a < b)) dt.ordinals other.ordinal

/-- `DateTensor.__le__`: `self._ordinals <= other.ordinal()`. -/
def DateTensor.le (dt other : DateTensor) : List Bool :=
  List.zipWith (fun a b => decide (a ≤ b)) dt.ordinals other.ordinal

/-- Python exception kinds observable from `convert_to_date_tensor` and the
factories: `tf.errors.InvalidArgumentError` from failed validation asserts,
`TypeError` / `AttributeError` from Python-level type slips. -/
inductive PyError
  | invalidArgument
  | typeError (msg : String)
  | attributeError
deriving DecidableEq

/-- Elements of a Python sequence handed to `convert_to_date_tensor`:
an object carrying `year`/`month`/`day` attributes (`datetime.date`-like),
an element that is itself a sequence (a (y, m, d) tuple), or a plain
number. -/
inductive SeqElem
  | dateLike (year month day : Int)
  | subSeq (fields : List Int)
  | scalar (v : Int)
deriving DecidableEq

/-- The input universe of `convert_to_date_tensor`:
a `DateTensor` (case 1 of its docstring); a numpy `datetime64` array, whose
`astype("datetime64[D]")` view is carried here as days since 1 Jan 1970
(case 2); a tf tensor of ordinals (case 5); a Python sequence (cases 1/3/4
of the docstring); or any other object, carried with the result of
attempting `tf.convert_to_tensor(·, tf.int32)` on it (`none` when that
coercion raises `ValueError`). -/
inductive DateInputs
  | dateTensor (dt : DateTensor)
  | npArray (datetimeDays : List Int)
  | tfTensor (values : List Int)
  | sequence (elems : List SeqElem)
  | otherInput (coercible : Option (List Int))
deriving DecidableEq

/-- Lifts a factory result into the converter's error monad: a failed
validation assert surfaces as `InvalidArgumentError`. -/
def lift_opt : Option DateTensor → Except PyError DateTensor
  | some dt => .ok dt
  | none => .error .invalidArgument

/-- `from_datetimes(datetimes)`: reads the `year`/`month`/`day` attributes of
every element into three int32 arrays and delegates to
`from_year_month_day` with `validate=False`.  An element without those
attributes raises `AttributeError`. -/
def from_datetimes (datetimes : List SeqElem) : Except PyError DateTensor :=
  match datetimes.mapM (fun e => match e with
    | .dateLike y m d => some (y, m, d)
    | _ => none) with
  | none => .error .attributeError
  | some ymds =>
    lift_opt (from_year_month_day (ymds.map (fun t => t.1))
      (ymds.map (fun t => t.2.1)) (ymds.map (fun t => t.2.2)) false)

/-- `from_np_datetimes(np_datetimes)`: the day-granularity datetime64 values
(days since 1 Jan 1970) plus `_ORDINAL_OF_1_1_1970`, delegated to
`from_ordinals` with `validate=False`. -/
def from_np_datetimes (np_datetimes : List Int) : Except PyError DateTensor :=
  lift_opt (from_ordinals (np_datetimes.map (fun v => v + ORDINAL_OF_1_1_1970)) false)

/-- `from_tuples(year_month_day_tuples, validate=True)`: unzips `t[0]`,
`t[1]`, `t[2]` of every element into three arrays and delegates to
`from_year_month_day`.  An element that is not an indexable sequence of at
least three fields raises a Python-level error (`TypeError`/`IndexError`,
modelled as one kind). -/
def from_tuples (tuples : List SeqElem) (validate : Bool := true) :
    Except PyError DateTensor :=
  match tuples.mapM (fun e => match e with
    | .subSeq (y :: m :: d :: _) => some (y, m, d)
    | _ => none) with
  | none => .error (.typeError "element is not an indexable (year, month, day) triple")
  | some ymds =>
    lift_opt (from_year_month_day (ymds.map (fun t => t.1))
      (ymds.map (fun t => t.2.1)) (ymds.map (fun t => t.2.2)) validate)

/-- Which factory the sequence branch of `convert_to_date_tensor` selects
(source lines 370-380): empty sequence → empty ordinals; first element has a
`year` attribute → `from_datetimes`; first element is itself a sequence →
`from_tuples`; otherwise a 3-element sequence → `from_year_month_day`;
otherwise fall through to the last-ditch tensor coercion. -/
inductive FactoryChoice
  | emptyOrdinals
  | datetimes
  | tuples
  | yearMonthDay
  | fallback
deriving DecidableEq

/-- The dispatch performed on a Python sequence by `convert_to_date_tensor`:
it looks only at `date_inputs[0]` and, in the last case, `len(date_inputs)`. -/
def sequence_dispatch (elems : List SeqElem) : FactoryChoice :=
  match elems.head? with
  | none => .emptyOrdinals
  | some (.dateLike ..) => .datetimes
  | some (.subSeq _) => .tuples
  | some (.scalar _) =>
    if elems.length == 3 then .yearMonthDay else .fallback

/-- The last-ditch `tf.convert_to_tensor(date_inputs, dtype=tf.int32)` on a
sequence that fell through every recognized case: it succeeds exactly when
every element is a plain number (the reachable inputs are sequences whose
first element is a number; a later tuple or date object makes the coercion
raise `ValueError`). -/
def coerce_to_int_list : List SeqElem → Option (List Int)
  | [] => some []
  | .scalar v :: rest => (coerce_to_int_list rest).map (fun l => v :: l)
  | _ => none

/-- The error actually produced by the converter's `except ValueError` handler:
the source runs `raise ValueError("Failed to convert inputs to DateTensor. "
"Unrecognized format. Error: " + e)`, but `e` is the caught exception object,
not a string, so the concatenation itself raises
`TypeError: can only concatenate str (not "ValueError") to str` instead of
the intended `ValueError`. -/
def conversion_failure_error : PyError :=
  .typeError "can only concatenate str to str"

/-- `convert_to_date_tensor(date_inputs)` — the polymorphic entry point.
Dispatch mirrors the source: `DateTensor` passthrough; numpy array →
`astype("datetime64[D]")` then `from_np_datetimes`; tf tensor →
`from_ordinals` (default validation); sequence → by `sequence_dispatch`
(the 3-element year/month/day case requires the three entries to be
scalars/rank-0 tensors, as non-numeric entries fail the factory's tensor
coercion); anything else → last-ditch coercion to an int32 tensor of
ordinals, whose failure triggers the (buggy) handler of
`conversion_failure_error`. -/
def convert_to_date_tensor (date_inputs : DateInputs) : Except PyError DateTensor :=
  match date_inputs with
  | .dateTensor dt => .ok dt
  | .npArray ds => from_np_datetimes ds
  | .tfTensor vs => lift_opt (from_ordinals vs)
  | .sequence elems =>
    match sequence_dispatch elems with
    | .emptyOrdinals => lift_opt (from_ordinals [])
    | .datetimes => from_datetimes elems
    | .tuples => from_tuples elems
    | .yearMonthDay =>
      match elems with
      | [.scalar y, .scalar m, .scalar d] =>
        lift_opt (from_year_month_day [y] [m] [d])
      | _ => .error .invalidArgument
    | .fallback =>
      match coerce_to_int_list elems with
      | some vs => lift_opt (from_ordinals vs)
      | none => .error conversion_failure_error
  | .otherInput c =>
    match c with
    | some vs => lift_opt (from_ordinals vs)
    | none => .error conversion_failure_error

/-! ### List helper lemmas for the elementwise (tensor) semantics -/

theorem length_zipWith3 {α β γ δ : Type} (f : α → β → γ → δ) :
    ∀ (as : List α) (bs : List β) (cs : List γ),
      (zipWith3 f as bs cs).length = min as.length (min bs.length cs.length)
  | [], _, _ => by simp [zipWith3]
  | _ :: _, [], _ => by simp [zipWith3]
  | _ :: _, _ :: _, [] => by simp [zipWith3]
  | a :: as, b :: bs, c :: cs => by
    simp [zipWith3, length_zipWith3 f as bs cs]
    omega

theorem getD_zipWith3 {α β γ δ : Type} (f : α → β → γ → δ)
    (da : α) (db : β) (dc : γ) (dd : δ) :
    ∀ (as : List α) (bs : List β) (cs : List γ) (i : Nat),
      i < as.length → bs.length = as.length → cs.length = as.length →
      (zipWith3 f as bs cs).getD i dd
        = f (as.getD i da) (bs.getD i db) (cs.getD i dc)
  | [], _, _, i => by intro hi _ _; simp at hi
  | _ :: _, [], _, i => by intro _ hb _; simp at hb
  | _ :: _, _ :: _, [], i => by intro _ _ hc; simp at hc
  | a :: as, b :: bs, c :: cs, 0 => by intro _ _ _; simp [zipWith3]
  | a :: as, b :: bs, c :: cs, i + 1 => by
    intro hi hb hc
    simpa [zipWith3] using
      getD_zipWith3 f da db dc dd as bs cs i (by simpa using hi)
        (by simpa using hb) (by simpa using hc)

theorem zipWith3_zipWith_map {α β γ δ ε ζ : Type}
    (f : δ → ε → γ → ζ) (g : α → β → δ) (h : β → ε) :
    ∀ (as : List α) (bs : List β) (cs : List γ),
      zipWith3 f (List.zipWith g as bs) (bs.map h) cs
        = zipWith3 (fun a b c => f (g a b) (h b) c) as bs cs
  | [], _, _ => by simp [zipWith3]
  | _ :: _, [], _ => by simp [zipWith3]
  | _ :: _, _ :: _, [] => by simp [zipWith3]
  | a :: as, b :: bs, c :: cs => by
    simp [zipWith3, zipWith3_zipWith_map f g h as bs cs]

theorem zipWith3_map_left {α β γ δ ε : Type} (f : δ → β → γ → ε) (g : α → δ) :
    ∀ (as : List α) (bs : List β) (cs : List γ),
      zipWith3 f (as.map g) bs cs = zipWith3 (fun a b c => f (g a) b c) as bs cs
  | [], _, _ => by simp [zipWith3]
  | _ :: _, [], _ => by simp [zipWith3]
  | _ :: _, _ :: _, [] => by simp [zipWith3]
  | a :: as, b :: bs, c :: cs => by
    simp [zipWith3, zipWith3_map_left f g as bs cs]

theorem getD_map_of_lt {α β : Type} (f : α → β) (da : α) (db : β)
    (as : List α) (i : Nat) (hi : i < as.length) :
    (as.map f).getD i db = f (as.getD i da) := by
  simp [List.getD_eq_getElem?_getD, List.getElem?_eq_getElem hi]

theorem getD_zipWith_of_lt {α β γ : Type} (f : α → β → γ)
    (da : α) (db : β) (dc : γ) (as : List α) (bs : List β) (i : Nat)
    (hi : i < as.length) (hb : bs.length = as.length) :
    (List.zipWith f as bs).getD i dc = f (as.getD i da) (bs.getD i db) := by
  simp [List.getD_eq_getElem?_getD, List.getElem?_zipWith,
    List.getElem?_eq_getElem hi, List.getElem?_eq_getElem (hb ▸ hi)]

theorem all_iff_getD {α : Type} (p : α → Bool) (d : α) (as : List α) :
    (as.all p = true) ↔ ∀ i, i < as.length → p (as.getD i d) = true := by
  rw [List.all_eq_true]
  constructor
  · intro h i hi
    rw [List.getD_eq_getElem?_getD, List.getElem?_eq_getElem hi]
    exact h _ (List.getElem_mem hi)
  · intro h x hx
    obtain ⟨i, hi, rfl⟩ := List.mem_iff_getElem.mp hx
    have := h i hi
    rwa [List.getD_eq_getElem?_getD, List.getElem?_eq_getElem hi] at this

theorem all_zipWith3_iff {α β γ : Type} (p : α → β → γ → Bool)
    (da : α) (db : β) (dc : γ)
    (as : List α) (bs : List β) (cs : List γ)
    (hb : bs.length = as.length) (hc : cs.length = as.length) :
    ((zipWith3 p as bs cs).all (fun b => b) = true ↔
      ∀ i, i < as.length → p (as.getD i da) (bs.getD i db) (cs.getD i dc) = true) := by
  rw [all_iff_getD (fun b => b) true]
  constructor
  · intro h i hi
    have := h i (by rw [length_zipWith3]; omega)
    rwa [getD_zipWith3 p da db dc true as bs cs i hi hb hc] at this
  · intro h i hi
    rw [length_zipWith3] at hi
    rw [getD_zipWith3 p da db dc true as bs cs i (by omega) hb hc]
    exact h i (by omega)

/-- `from_ordinals` with validation succeeds exactly on all-positive
ordinal arrays. -/
theorem isSome_from_ordinals (l : List Int) :
    (from_ordinals l true).isSome ↔ ∀ v ∈ l, 0 < v := by
  rw [from_ordinals]
  cases h : l.all (fun o => decide (0 < o)) with
  | true =>
    simp only [h, Bool.not_true, Bool.and_false, Bool.false_eq_true, if_false,
      Option.isSome_some, true_iff]
    intro v hv
    simpa using List.all_eq_true.mp h v hv
  | false =>
    simp only [h, Bool.not_false, Bool.and_true, if_true, Option.isSome_none,
      Bool.false_eq_true, false_iff]
    intro hall
    have : l.all (fun o => decide (0 < o)) = true :=
      List.all_eq_true.mpr (fun v hv => by simpa using hall v hv)
    rw [h] at this
    exact Bool.false_ne_true this

/-! ### Claim theorems -/

/-- C6: For every DateTensor `d` and every integer `n`, adding a WEEK-type
period of quantity `n` equals adding a DAY-type period of quantity `7 * n`:
the WEEK branch rewrites itself as a DAY addition with the quantity
multiplied by 7. -/
theorem add_week_eq_add_seven_days (dt : DateTensor) (n : Int) :
    dt.add ⟨n, PeriodType.WEEK⟩ = dt.add ⟨7 * n, PeriodType.DAY⟩ := by
  show dt.add_days (n * 7) = dt.add_days (7 * n)
  rw [Int.mul_comm]

/-- C7: For every DateTensor and every period `p`, `self - p` equals
`self + p2` where `p2` carries the same period-type tag and the negated
quantity; it therefore inherits the day clamping of addition
(e.g. 31 Mar 2020 - 1 month = 29 Feb 2020). -/
theorem sub_eq_add_negated (dt : DateTensor) (p : PeriodTensor) :
    dt.sub p = dt.add ⟨-p.quantity, p.period_type⟩ ∧
    ((from_year_month_day [2020] [3] [31]).bind
        (fun d => d.sub ⟨1, PeriodType.MONTH⟩))
      = from_year_month_day [2020] [2] [29] false :=
  ⟨rfl, by decide⟩

/-- C4: A raw numeric tensor/scalar input (no date semantics) is treated as
an array of ordinals and built via the ordinals factory with validation,
while a date-typed numpy array is shifted by the 719163 epoch offset and
built from ordinals with validation skipped. -/
theorem convert_numeric_inputs (vs ds : List Int) :
    convert_to_date_tensor (.tfTensor vs) = lift_opt (from_ordinals vs true) ∧
    convert_to_date_tensor (.npArray ds)
      = lift_opt
          (from_ordinals (ds.map (fun v => v + ORDINAL_OF_1_1_1970)) false) :=
  ⟨rfl, rfl⟩

/-- C5 (code-bug evidence): when no recognized shape matches,
`convert_to_date_tensor` attempts the raw coercion, and when that fails the
`except ValueError` handler evaluates `"..." + e` with `e` an exception
object, so the call fails with `TypeError` ("can only concatenate str ...")
instead of the documented `ValueError` describing the unrecognized input. -/
theorem convert_fallback_raises_type_error :
    convert_to_date_tensor (.otherInput none) = .error conversion_failure_error ∧
    convert_to_date_tensor (.sequence [.scalar 1, .dateLike 2020 1 1])
      = .error conversion_failure_error ∧
    conversion_failure_error = .typeError "can only concatenate str to str" :=
  ⟨rfl, rfl, rfl⟩

/-- C9: DAY-type addition rebuilds its result through the ordinals factory
with validation enabled (the default), so it fails exactly when some
resulting ordinal is non-positive; MONTH-type and YEAR-type addition build
their result with validation disabled and never fail. -/
theorem day_add_validates_month_year_add_does_not (dt : DateTensor) (q : Int) :
    dt.add ⟨q, PeriodType.DAY⟩
        = from_ordinals (dt.ordinals.map (fun o => o + q)) true ∧
    ((dt.add ⟨q, PeriodType.DAY⟩).isSome ↔ ∀ o ∈ dt.ordinals, 0 < o + q) ∧
    (dt.add ⟨q, PeriodType.MONTH⟩).isSome ∧
    (dt.add ⟨q, PeriodType.YEAR⟩).isSome := by
  refine ⟨rfl, ?_, rfl, rfl⟩
  show (from_ordinals (dt.ordinals.map (fun o => o + q)) true).isSome ↔ _
  rw [isSome_from_ordinals, List.forall_mem_map]

/-- C10: For every non-empty sequence input, the choice among the datetimes
factory, the tuples factory and the year/month/day factory is made by
inspecting only the first element (plus, in the last case, whether the
sequence has exactly 3 elements); the remaining elements are never examined
during dispatch. -/
theorem sequence_dispatch_first_element_only (es1 es2 : List SeqElem)
    (hh : es1.head? = es2.head?)
    (hl : es1.length = 3 ↔ es2.length = 3) :
    sequence_dispatch es1 = sequence_dispatch es2 := by
  have hl2 : (es1.length == 3) = (es2.length == 3) := by
    cases hb1 : es1.length == 3 <;> cases hb2 : es2.length == 3 <;>
      simp_all [beq_iff_eq]
  cases h : es2.head? with
  | none => simp [sequence_dispatch, hh, h]
  | some e =>
    cases e with
    | dateLike y m d => simp [sequence_dispatch, hh, h]
    | subSeq f => simp [sequence_dispatch, hh, h]
    | scalar v => simp [sequence_dispatch, hh, h, hl2]

/-- Witness for C10: two sequences sharing only their first element and
their not-3 length dispatch identically. -/
theorem sequence_dispatch_first_element_only_witness :
    sequence_dispatch [.scalar 1, .scalar 2]
      = sequence_dispatch [.scalar 1, .subSeq [9, 9, 9]] :=
  sequence_dispatch_first_element_only _ _ rfl (by decide)

/-- Fused elementwise form of the MONTH branch of `__add__`, shared by the
proofs below. -/
theorem month_add_unfold (dt : DateTensor) (q : Int) :
    dt.add ⟨q, PeriodType.MONTH⟩ =
      from_year_month_day
        (List.zipWith (fun yr mo => yr + (mo - 1 + q).fdiv 12)
          dt.years dt.months)
        (dt.months.map (fun mo => (mo - 1 + q).fmod 12 + 1))
        (zipWith3
          (fun yr mo dy =>
            min dy (gather_days_in_months
              (is_leap_year (yr + (mo - 1 + q).fdiv 12))
              ((mo - 1 + q).fmod 12 + 1)))
          dt.years dt.months dt.days)
        false := by
  show from_year_month_day
      (List.zipWith (fun yr mv => yr + mv.fdiv 12) dt.years
        (dt.months.map (fun mo => mo - 1 + q)))
      ((dt.months.map (fun mo => mo - 1 + q)).map (fun mv => mv.fmod 12 + 1))
      (adjust_day
        (List.zipWith (fun yr mv => yr + mv.fdiv 12) dt.years
          (dt.months.map (fun mo => mo - 1 + q)))
        ((dt.months.map (fun mo => mo - 1 + q)).map (fun mv => mv.fmod 12 + 1))
        dt.days)
      false = _
  rw [adjust_day, List.zipWith_map_right, List.map_map,
    zipWith3_zipWith_map]
  rfl

/-- C1: MONTH addition computes, elementwise, the zero-based month count
`m = month - 1 + quantity`, the new year `year + fdiv m 12`, the new month
`fmod m 12 + 1` (mathematical floor division and modulo), and the new day
`min day (days_in_months[newMonth + 12 * is_leap_year newYear])`, and builds the
result through the year/month/day factory with validation disabled; a
negative quantity rolls over (15 Jan 2020 - 1 month = 15 Dec 2019). -/
theorem month_add_formula (dt : DateTensor) (q : Int) :
    dt.add ⟨q, PeriodType.MONTH⟩ =
      from_year_month_day
        (List.zipWith (fun yr mo => yr + (mo - 1 + q).fdiv 12)
          dt.years dt.months)
        (dt.months.map (fun mo => (mo - 1 + q).fmod 12 + 1))
        (zipWith3
          (fun yr mo dy =>
            min dy (gather_days_in_months
              (is_leap_year (yr + (mo - 1 + q).fdiv 12))
              ((mo - 1 + q).fmod 12 + 1)))
          dt.years dt.months dt.days)
        false ∧
    ((from_year_month_day [2020] [1] [15]).bind
        (fun d => d.add ⟨-1, PeriodType.MONTH⟩))
      = from_year_month_day [2019] [12] [15] false :=
  ⟨month_add_unfold dt q, by decide⟩

/-- C2: MONTH and YEAR addition clamp the day of month: the resulting day is
the minimum of the original day and the target month's length, never exceeds
the target month's length (so it never rolls into the next month, the month
component being exactly the target month), and equals the target month's
last valid day whenever that month cannot hold the original day; concretely,
31 Mar 2020 + 1 month = 30 Apr 2020 and 29 Feb 2020 + 1 year =
28 Feb 2021. -/
theorem month_year_add_clamp_day (dt : DateTensor) (q : Int) (i : Nat)
    (hm : dt.months.length = dt.years.length)
    (hd : dt.days.length = dt.years.length)
    (hi : i < dt.years.length) :
    (∀ res, dt.add ⟨q, PeriodType.MONTH⟩ = some res →
      res.months.getD i 0 = (dt.months.getD i 0 - 1 + q).fmod 12 + 1 ∧
      res.days.getD i 0 = min (dt.days.getD i 0)
        (gather_days_in_months (is_leap_year (res.years.getD i 0))
          (res.months.getD i 0)) ∧
      res.days.getD i 0 ≤ gather_days_in_months
        (is_leap_year (res.years.getD i 0)) (res.months.getD i 0) ∧
      (gather_days_in_months (is_leap_year (res.years.getD i 0))
          (res.months.getD i 0) < dt.days.getD i 0 →
        res.days.getD i 0 = gather_days_in_months
          (is_leap_year (res.years.getD i 0)) (res.months.getD i 0))) ∧
    (∀ res, dt.add ⟨q, PeriodType.YEAR⟩ = some res →
      res.months.getD i 0 = dt.months.getD i 0 ∧
      res.days.getD i 0 = min (dt.days.getD i 0)
        (gather_days_in_months (is_leap_year (res.years.getD i 0))
          (res.months.getD i 0)) ∧
      res.days.getD i 0 ≤ gather_days_in_months
        (is_leap_year (res.years.getD i 0)) (res.months.getD i 0) ∧
      (gather_days_in_months (is_leap_year (res.years.getD i 0))
          (res.months.getD i 0) < dt.days.getD i 0 →
        res.days.getD i 0 = gather_days_in_months
          (is_leap_year (res.years.getD i 0)) (res.months.getD i 0))) ∧
    ((from_year_month_day [2020] [3] [31]).bind
        (fun d => d.add ⟨1, PeriodType.MONTH⟩))
      = from_year_month_day [2020] [4] [30] false ∧
    ((from_year_month_day [2020] [2] [29]).bind
        (fun d => d.add ⟨1, PeriodType.YEAR⟩))
      = from_year_month_day [2021] [2] [28] false := by
  refine ⟨?_, ?_, by decide, by decide⟩
  · intro res hres
    rw [month_add_unfold dt q, from_year_month_day] at hres
    simp only [Bool.false_and, Bool.false_eq_true, if_false,
      Option.some.injEq] at hres
    subst hres
    have hyear : (List.zipWith (fun yr mo => yr + (mo - 1 + q).fdiv 12)
        dt.years dt.months).getD i 0
        = dt.years.getD i 0 + (dt.months.getD i 0 - 1 + q).fdiv 12 :=
      getD_zipWith_of_lt _ 0 0 0 _ _ i hi hm
    have hmonth : (dt.months.map (fun mo => (mo - 1 + q).fmod 12 + 1)).getD i 0
        = (dt.months.getD i 0 - 1 + q).fmod 12 + 1 :=
      getD_map_of_lt _ 0 0 _ i (by omega)
    have hday : (zipWith3
        (fun yr mo dy =>
          min dy (gather_days_in_months
            (is_leap_year (yr + (mo - 1 + q).fdiv 12))
            ((mo - 1 + q).fmod 12 + 1)))
        dt.years dt.months dt.days).getD i 0
        = min (dt.days.getD i 0)
            (gather_days_in_months
              (is_leap_year (dt.years.getD i 0 + (dt.months.getD i 0 - 1 + q).fdiv 12))
              ((dt.months.getD i 0 - 1 + q).fmod 12 + 1)) :=
      getD_zipWith3 _ 0 0 0 0 _ _ _ i hi hm hd
    refine ⟨hmonth, ?_, ?_, ?_⟩
    · simp only [hday, hyear, hmonth]
    · simp only [hday, hyear, hmonth]
      exact min_le_right _ _
    · intro hlt
      simp only [hyear, hmonth] at hlt
      simp only [hday, hyear, hmonth]
      exact min_eq_right (le_of_lt hlt)
  · intro res hres
    have hres2 : from_year_month_day (dt.years.map (fun yr => yr + q))
        dt.months
        (adjust_day (dt.years.map (fun yr => yr + q)) dt.months dt.days)
        false = some res := hres
    rw [from_year_month_day] at hres2
    simp only [Bool.false_and, Bool.false_eq_true, if_false,
      Option.some.injEq] at hres2
    subst hres2
    have hyear : (dt.years.map (fun yr => yr + q)).getD i 0
        = dt.years.getD i 0 + q :=
      getD_map_of_lt _ 0 0 _ i hi
    have hday : (zipWith3
        (fun y m d => min d (gather_days_in_months (is_leap_year y) m))
        (dt.years.map (fun yr => yr + q)) dt.months dt.days).getD i 0
        = min (dt.days.getD i 0)
            (gather_days_in_months (is_leap_year (dt.years.getD i 0 + q))
              (dt.months.getD i 0)) := by
      rw [getD_zipWith3 _ 0 0 0 0 _ _ _ i (by simpa using hi)
        (by simpa using hm) (by simpa using hd), hyear]
    refine ⟨rfl, ?_, ?_, ?_⟩
    · simp only [adjust_day, hday, hyear]
    · simp only [adjust_day, hday, hyear]
      exact min_le_right _ _
    · intro hlt
      simp only [adjust_day, hyear] at hlt
      simp only [adjust_day, hday, hyear]
      exact min_eq_right (le_of_lt (by simpa using hlt))

/-- Witness for C2: 31 Jan 2020 + 1 month clamps the day to
29 = min(31, days in Feb 2020). -/
theorem month_year_add_clamp_day_witness :
    (⟨[year_month_day_to_ordinal 2020 2 29], [2020], [2], [29]⟩ :
        DateTensor).days.getD 0 0
      = min ((⟨[1], [2020], [1], [31]⟩ : DateTensor).days.getD 0 0)
          (gather_days_in_months
            (is_leap_year
              ((⟨[year_month_day_to_ordinal 2020 2 29], [2020], [2], [29]⟩ :
                  DateTensor).years.getD 0 0))
            ((⟨[year_month_day_to_ordinal 2020 2 29], [2020], [2], [29]⟩ :
                DateTensor).months.getD 0 0)) :=
  ((month_year_add_clamp_day ⟨[1], [2020], [1], [31]⟩ 1 0 rfl rfl
      (by decide)).1
    ⟨[year_month_day_to_ordinal 2020 2 29], [2020], [2], [29]⟩
    (by decide)).2.1

/-- C3: `from_year_month_day` with validation succeeds exactly when,
elementwise, the year is strictly positive, the month lies in [1, 12], the
day is strictly positive and the day is at most the leap-aware month length
from the 25-entry table; with validation disabled it always succeeds; and
`from_ordinals` asserts strict positivity of every ordinal exactly when
validation is enabled. -/
theorem factory_validation (y m d o : List Int)
    (hm : m.length = y.length) (hd : d.length = y.length) :
    ((from_year_month_day y m d true).isSome ↔
      ∀ i, i < y.length →
        0 < y.getD i 0 ∧ 1 ≤ m.getD i 0 ∧ m.getD i 0 ≤ 12 ∧ 0 < d.getD i 0 ∧
        d.getD i 0 ≤ gather_days_in_months (is_leap_year (y.getD i 0))
          (m.getD i 0)) ∧
    (from_year_month_day y m d false).isSome ∧
    ((from_ordinals o true).isSome ↔ ∀ v ∈ o, 0 < v) ∧
    (from_ordinals o false).isSome := by
  have key : ∀ (c : Bool) (x : DateTensor),
      ((if true && !c then (none : Option DateTensor) else some x).isSome
        ↔ c = true) := by
    intro c x
    cases c <;> simp
  refine ⟨?_, ?_, isSome_from_ordinals o, ?_⟩
  · rw [from_year_month_day]
    rw [key]
    simp only [Bool.and_eq_true]
    rw [all_iff_getD (fun v => decide (0 < v)) 0 y,
      all_iff_getD (fun v => decide (1 ≤ v)) 0 m,
      all_iff_getD (fun v => decide (v ≤ 12)) 0 m,
      all_iff_getD (fun v => decide (0 < v)) 0 d,
      all_zipWith3_iff
        (fun yv mv dv =>
          decide (dv ≤ gather_days_in_months (is_leap_year yv) mv))
        0 0 0 y m d hm hd]
    simp only [decide_eq_true_eq]
    constructor
    · rintro ⟨⟨⟨⟨h1, h2⟩, h3⟩, h4⟩, h5⟩ i hi
      exact ⟨h1 i hi, h2 i (by omega), h3 i (by omega), h4 i (by omega),
        h5 i hi⟩
    · intro h
      exact ⟨⟨⟨⟨fun i hi => (h i hi).1, fun i hi => (h i (by omega)).2.1⟩,
        fun i hi => (h i (by omega)).2.2.1⟩,
        fun i hi => (h i (by omega)).2.2.2.1⟩,
        fun i hi => (h i hi).2.2.2.2⟩
  · rw [from_year_month_day]
    simp
  · rw [from_ordinals]
    simp

/-- Witness for C3: validation rejects 29 Feb 2019 (2019 is not leap). -/
theorem factory_validation_witness :
    (from_year_month_day [2019] [2] [29] true).isSome ↔
      ∀ i, i < ([2019] : List Int).length →
        0 < ([2019] : List Int).getD i 0 ∧ 1 ≤ ([2] : List Int).getD i 0 ∧
        ([2] : List Int).getD i 0 ≤ 12 ∧ 0 < ([29] : List Int).getD i 0 ∧
        ([29] : List Int).getD i 0 ≤ gather_days_in_months
          (is_leap_year (([2019] : List Int).getD i 0))
          (([2] : List Int).getD i 0) :=
  (factory_validation [2019] [2] [29] [1] rfl rfl).1

/-- C8: every comparison operator on two DateTensors equals the
corresponding elementwise comparison of their ordinal arrays; in particular
`a > b` holds exactly when `a.ordinal() > b.ordinal()`, and equality is
decided purely by ordinal identity. -/
theorem comparisons_delegate_to_ordinals (a b : DateTensor) (i : Nat)
    (hlen : b.ordinals.length = a.ordinals.length)
    (hi : i < a.ordinals.length) :
    (a.eq b).getD i false = (a.ordinals.getD i 0 == b.ordinals.getD i 0) ∧
    (a.ne b).getD i false = (a.ordinals.getD i 0 != b.ordinals.getD i 0) ∧
    ((a.gt b).getD i false = true ↔ a.ordinals.getD i 0 > b.ordinals.getD i 0) ∧
    ((a.ge b).getD i false = true ↔ a.ordinals.getD i 0 ≥ b.ordinals.getD i 0) ∧
    ((a.lt b).getD i false = true ↔ a.ordinals.getD i 0 < b.ordinals.getD i 0) ∧
    ((a.le b).getD i false = true ↔ a.ordinals.getD i 0 ≤ b.ordinals.getD i 0) ∧
    ((a.eq b).getD i false = true ↔ a.ordinals.getD i 0 = b.ordinals.getD i 0) := by
  refine ⟨?_, ?_, ?_, ?_, ?_, ?_, ?_⟩
  · exact getD_zipWith_of_lt (fun x v => x == v) 0 0 false _ _ i hi hlen
  · exact getD_zipWith_of_lt (fun x v => x != v) 0 0 false _ _ i hi hlen
  · rw [show (a.gt b).getD i false
        = decide (a.ordinals.getD i 0 > b.ordinals.getD i 0) from
      getD_zipWith_of_lt _ 0 0 false _ _ i hi hlen]
    exact decide_eq_true_iff
  · rw [show (a.ge b).getD i false
        = decide (a.ordinals.getD i 0 ≥ b.ordinals.getD i 0) from
      getD_zipWith_of_lt _ 0 0 false _ _ i hi hlen]
    exact decide_eq_true_iff
  · rw [show (a.lt b).getD i false
        = decide (a.ordinals.getD i 0 < b.ordinals.getD i 0) from
      getD_zipWith_of_lt _ 0 0 false _ _ i hi hlen]
    exact decide_eq_true_iff
  · rw [show (a.le b).getD i false
        = decide (a.ordinals.getD i 0 ≤ b.ordinals.getD i 0) from
      getD_zipWith_of_lt _ 0 0 false _ _ i hi hlen]
    exact decide_eq_true_iff
  · rw [show (a.eq b).getD i false
        = (a.ordinals.getD i 0 == b.ordinals.getD i 0) from
      getD_zipWith_of_lt _ 0 0 false _ _ i hi hlen]
    exact beq_iff_eq

/-- Witness for C8 at two concrete single-date tensors. -/
theorem comparisons_delegate_to_ordinals_witness :
    ((⟨[10], [1], [1], [10]⟩ : DateTensor).eq ⟨[3], [1], [1], [3]⟩).getD 0 false
        = ((([10] : List Int)).getD 0 0 == (([3] : List Int)).getD 0 0) ∧
    ((⟨[10], [1], [1], [10]⟩ : DateTensor).ne ⟨[3], [1], [1], [3]⟩).getD 0 false
        = ((([10] : List Int)).getD 0 0 != (([3] : List Int)).getD 0 0) ∧
    (((⟨[10], [1], [1], [10]⟩ : DateTensor).gt ⟨[3], [1], [1], [3]⟩).getD 0 false
        = true ↔ (([10] : List Int)).getD 0 0 > (([3] : List Int)).getD 0 0) ∧
    (((⟨[10], [1], [1], [10]⟩ : DateTensor).ge ⟨[3], [1], [1], [3]⟩).getD 0 false
        = true ↔ (([10] : List Int)).getD 0 0 ≥ (([3] : List Int)).getD 0 0) ∧
    (((⟨[10], [1], [1], [10]⟩ : DateTensor).lt ⟨[3], [1], [1], [3]⟩).getD 0 false
        = true ↔ (([10] : List Int)).getD 0 0 < (([3] : List Int)).getD 0 0) ∧
    (((⟨[10], [1], [1], [10]⟩ : DateTensor).le ⟨[3], [1], [1], [3]⟩).getD 0 false
        = true ↔ (([10] : List Int)).getD 0 0 ≤ (([3] : List Int)).getD 0 0) ∧
    (((⟨[10], [1], [1], [10]⟩ : DateTensor).eq ⟨[3], [1], [1], [3]⟩).getD 0 false
        = true ↔ (([10] : List Int)).getD 0 0 = (([3] : List Int)).getD 0 0) :=
  comparisons_delegate_to_ordinals ⟨[10], [1], [1], [10]⟩ ⟨[3], [1], [1], [3]⟩
    0 rfl (by decide)

end DateTensorSpec
